import Mathlib

/-
Verification of the conversation-session core of the Simple Ollama GUI
Client (Python, Tkinter).  The embedding below translates the methods of
the `OllamaChat` class into pure Lean functions.  Python/JSON values are
modelled by the inductive type `Json`; Python float objects by `PyNum`
(exact rationals plus the non-finite values inf, -inf, nan); Python
exceptions by `Except PyExc`.  The HTTP transport is a parameter: each
network-touching method receives the server response (or the fact that
`requests` raised a `RequestException`) as an explicit argument.
-/

/-- Python float values: finite values are modelled exactly as rationals
(no binary rounding, which no claim depends on), plus inf, -inf and nan. -/
inductive PyNum where
  | finite (q : ℚ)
  | inf
  | negInf
  | nan
deriving DecidableEq

/-- JSON values, doubling as the Python objects produced by `json.loads`.
Object keys are modelled as strings (the only keys this program produces);
objects are association lists in insertion order, assumed duplicate-free,
matching CPython dict semantics. -/
inductive Json where
  | null
  | bool (b : Bool)
  | num (n : PyNum)
  | str (s : String)
  | arr (xs : List Json)
  | obj (kvs : List (String × Json))

/-- Python exceptions that the modelled code can raise past the method
boundary (they are not `requests.exceptions.RequestException`, which is the
only class the source catches). -/
inductive PyExc where
  | jsonDecodeError
  | typeError
  | keyError
  | attributeError
deriving DecidableEq

/-- Dictionary lookup, `d.get(k)` / `k in d` on the association list. -/
def lookupJ : List (String × Json) → String → Option Json
  | [], _ => none
  | (k', v) :: rest, k => if k' = k then some v else lookupJ rest k

/-- Python `d[k] = v`: replace the value in place when the key is present
(CPython keeps the key position), append otherwise. -/
def setKey : List (String × Json) → String → Json → List (String × Json)
  | [], k, v => [(k, v)]
  | (k', v') :: rest, k, v =>
      if k' = k then (k', v) :: rest else (k', v') :: setKey rest k v

/-- Python `d.update(news)` for a list of key/value pairs: assign each pair
in order. -/
def updateKeys (ps : List (String × Json)) (news : List (String × Json)) :
    List (String × Json) :=
  news.foldl (fun acc kv => setKey acc kv.1 kv.2) ps

/-- Argument acceptance of Python `dict.update(x)`: a dict merges by its
pairs; a list merges when every element is a two-element `[key, value]`
list (keys modelled as strings); every other object raises. -/
def dictUpdateArg : Json → Option (List (String × Json))
  | .obj kvs => some kvs
  | .arr xs =>
      xs.mapM fun x =>
        match x with
        | .arr [.str k, v] => some (k, v)
        | _ => none
  | _ => none

/-- Python truthiness of a JSON-shaped value (`if not self.conversation`). -/
def pyTruthy : Json → Bool
  | .null => false
  | .bool b => b
  | .num (.finite q) => q ≠ 0
  | .num _ => true
  | .str s => s ≠ ""
  | .arr xs => !xs.isEmpty
  | .obj kvs => !kvs.isEmpty

/-- Whether a value is a Python number (int or float image of JSON). -/
def Json.isNum : Json → Bool
  | .num _ => true
  | _ => false

/-- Whether a value is a JSON object / Python dict. -/
def Json.isObj : Json → Bool
  | .obj _ => true
  | _ => false

/-- The in-memory state of an `OllamaChat` instance: the fields the claims
are about.  `model`, `system_prompt`, `chat_name` and `conversation` are
`Json`-typed because `load_conversation` assigns whatever the loaded
document contains; in a fresh instance they are strings and a list. -/
structure ChatState where
  base_url : String
  model : Json
  system_prompt : Json
  chat_name : Json
  parameters : List (String × Json)
  conversation : Json

/-- The parameter mapping built in `OllamaChat.__init__` (lines 48-53). -/
def defaultParameters : List (String × Json) :=
  [("temperature", .num (.finite (7/10))),
   ("top_p", .num (.finite (9/10))),
   ("top_k", .num (.finite 40)),
   ("max_tokens", .num (.finite 2000))]

/-- A fresh `OllamaChat("http://localhost:11434", "llama3.2")` with no
`config.ini` present. -/
def initState : ChatState :=
  { base_url := "http://localhost:11434"
    model := .str "llama3.2"
    system_prompt := .str ""
    chat_name := .str ""
    parameters := defaultParameters
    conversation := .arr [] }

/-- The exchange dict `{"user": prompt, "assistant": v}` appended by
`OllamaChat.chat`. -/
def mkExchJ (prompt : String) (assistant : Json) : Json :=
  .obj [("user", .str prompt), ("assistant", assistant)]

/-- The error-narrating string built in the `except` clause of
`OllamaChat.chat`. -/
def errNarr (e : String) : String :=
  "Error communicating with Ollama: " ++ e

/-- Whether a character list occurs contiguously inside another (the
Python substring test `sep in s`). -/
def hasInfix (sep : List Char) : List Char → Bool
  | [] => sep.isEmpty
  | c :: cs => sep.isPrefixOf (c :: cs) || hasInfix sep cs

/-- One line of the streamed response body, as seen by the loop
`for line in response.iter_lines()`: a blank line (skipped by `if line:`),
a line `json.loads` fails on, or a line parsing to a JSON value.  The JSON
grammar itself is abstracted: the claims quantify over parsed or
unparseable fragments, not over byte syntax. -/
inductive Frag where
  | empty
  | malformed
  | json (j : Json)

/-- Outcome of `requests.post(..., stream=True)` followed by
`raise_for_status()`: either a `RequestException` was raised (connection
refused, timeout, non-2xx status), or a body arrived as a list of lines. -/
inductive HttpStream where
  | reqError (msg : String)
  | ok (frags : List Frag)

/-- The streaming loop of `OllamaChat.chat` (lines 111-116): accumulate
`response_text`, record each `stream_callback` invocation in order.
`json.loads` raising on a malformed line is uncaught by the method (only
`RequestException` is caught), so it aborts the loop.  A fragment whose
`response` value is not a string makes `response_text += chunk[...]` raise
`TypeError`; the membership test `"response" in chunk` on a non-dict
follows Python semantics (element test on lists, substring test on
strings, `TypeError` otherwise). -/
def streamFrags : List Frag → String → List String →
    Except PyExc (String × List String)
  | [], acc, calls => .ok (acc, calls)
  | .empty :: rest, acc, calls => streamFrags rest acc calls
  | .malformed :: _, _, _ => .error .jsonDecodeError
  | .json j :: rest, acc, calls =>
      match j with
      | .obj kvs =>
          match lookupJ kvs "response" with
          | none => streamFrags rest acc calls
          | some (.str s) => streamFrags rest (acc ++ s) (calls ++ [s])
          | some _ => .error .typeError
      | .arr xs =>
          if xs.any (fun x => match x with | .str s => s = "response" | _ => false)
          then .error .typeError
          else streamFrags rest acc calls
      | .str s =>
          if hasInfix ("response").toList s.toList then .error .typeError
          else streamFrags rest acc calls
      | _ => .error .typeError

/-- The streaming branch of `OllamaChat.chat` (lines 106-120), given the
transport outcome.  Returns the value of the Python call together with the
ordered list of `stream_callback` arguments and the state after the call;
raising is modelled by `Except.error`.  On `RequestException` the method
returns the narrating string from the `except` clause without touching the
conversation. -/
def chat_stream (st : ChatState) (prompt : String) (resp : HttpStream) :
    Except PyExc (String × List String × ChatState) :=
  match resp with
  | .reqError e => .ok (errNarr e, [], st)
  | .ok frags =>
      match streamFrags frags "" [] with
      | .error exc => .error exc
      | .ok (text, calls) =>
          match st.conversation with
          | .arr xs =>
              .ok (text, calls,
                { st with conversation := .arr (xs ++ [mkExchJ prompt (.str text)]) })
          | _ => .error .attributeError

/-- Outcome of a non-streaming `requests.post` followed by
`raise_for_status()` and `response.json()`: a `RequestException` (which in
the installed requests library also covers a malformed JSON body, since
`requests.exceptions.JSONDecodeError` derives from it), or a parsed body. -/
inductive HttpOnce where
  | reqError (msg : String)
  | ok (body : Json)

/-- The non-streaming branch of `OllamaChat.chat` (lines 121-128): read
`result["response"]`, append the exchange, return the value.  A body that
is not a dict, or a dict without the key, raises past the method (only
`RequestException` is caught). -/
def chat_once (st : ChatState) (prompt : String) (resp : HttpOnce) :
    Except PyExc (Json × ChatState) :=
  match resp with
  | .reqError e => .ok (.str (errNarr e), st)
  | .ok body =>
      match body with
      | .obj kvs =>
          match lookupJ kvs "response" with
          | some v =>
              match st.conversation with
              | .arr xs =>
                  .ok (v, { st with conversation := .arr (xs ++ [mkExchJ prompt v]) })
              | _ => .error .attributeError
          | none => .error .keyError
      | _ => .error .typeError

/-- Value of one element of the list comprehension in
`OllamaChat.get_models`: `model["name"]` with Python indexing semantics. -/
def modelName : Json → Except PyExc Json
  | .obj kvs =>
      match lookupJ kvs "name" with
      | some v => .ok v
      | none => .error .keyError
  | _ => .error .typeError

/-- `OllamaChat.get_models` (lines 134-143), given the transport outcome:
on `RequestException` (which includes a malformed JSON body) return the
empty list; otherwise evaluate `[model["name"] for model in
result["models"]]`, where missing keys or wrong shapes raise past the
method.  Iterating a string yields its characters (each then raising
`TypeError` under indexing by a string), iterating a dict yields its keys,
iterating a number raises. -/
def get_models (resp : HttpOnce) : Except PyExc (List Json) :=
  match resp with
  | .reqError _ => .ok []
  | .ok body =>
      match body with
      | .obj kvs =>
          match lookupJ kvs "models" with
          | none => .error .keyError
          | some (.arr ms) => ms.mapM modelName
          | some (.str s) => if s = "" then .ok [] else .error .typeError
          | some (.obj mkvs) => if mkvs.isEmpty then .ok [] else .error .typeError
          | some _ => .error .typeError
      | _ => .error .typeError

/-- Snapshot written by `OllamaChat.save_config` into `config.ini`
(string serialization of the numeric values is not modelled; no claim
depends on it). -/
structure ConfigOut where
  base_url : String
  model : Json
  system_prompt : Json
  parameters : List (String × Json)

/-- `OllamaChat.save_config` as the content of the durable config write. -/
def save_config (st : ChatState) : ConfigOut :=
  { base_url := st.base_url
    model := st.model
    system_prompt := st.system_prompt
    parameters := st.parameters }

/-- Split a character list at every occurrence of a separator. -/
def splitOnChar (c : Char) : List Char → List (List Char)
  | [] => [[]]
  | x :: xs =>
      let r := splitOnChar c xs
      if x = c then [] :: r
      else
        match r with
        | h :: t => (x :: h) :: t
        | [] => [[x]]

/-- Numeric value of a digit list. -/
def digitsVal (cs : List Char) : ℕ :=
  cs.foldl (fun a c => a * 10 + (c.toNat - 48)) 0

/-- Fractional-notation part of a Python float literal: digits with at
most one dot, at least one digit overall.  Returns the digit string read
as a natural number together with the count of fractional digits. -/
def parseMantissa (cs : List Char) : Option (ℕ × ℕ) :=
  match splitOnChar '.' cs with
  | [a] =>
      if !a.isEmpty && a.all (·.isDigit) then some (digitsVal a, 0) else none
  | [a, b] =>
      if (!a.isEmpty || !b.isEmpty) && a.all (·.isDigit) && b.all (·.isDigit) then
        some (digitsVal (a ++ b), b.length)
      else none
  | _ => none

/-- The rational `±n / 10 ^ fl * 10 ^ ex`, built with core constructors so
that it evaluates. -/
def sciRat (neg : Bool) (n fl : ℕ) (ex : ℤ) : ℚ :=
  let num : ℤ := if neg then -(n : ℤ) else (n : ℤ)
  match ex with
  | .ofNat e => mkRat (num * ((10 ^ e : ℕ) : ℤ)) (10 ^ fl)
  | .negSucc e => mkRat num (10 ^ fl * 10 ^ (e + 1))

/-- Exponent part of a Python float literal: optional sign, then digits. -/
def parseExpDigits (cs : List Char) : Option ℤ :=
  let (sgn, ds) :=
    match cs with
    | '+' :: r => ((1 : ℤ), r)
    | '-' :: r => ((-1 : ℤ), r)
    | r => ((1 : ℤ), r)
  if !ds.isEmpty && ds.all (·.isDigit) then some (sgn * digitsVal ds) else none

/-- Strip whitespace from both ends, Python `str.strip()`. -/
def trimChars (cs : List Char) : List Char :=
  ((cs.dropWhile Char.isWhitespace).reverse.dropWhile Char.isWhitespace).reverse

/-- Python `float(str)` on the inputs this program meets: surrounding
whitespace stripped, optional sign, then a decimal literal with optional
fraction and exponent, or the case-insensitive words inf, infinity, nan.
(Underscore digit grouping, accepted by CPython, is outside the modelled
input space.)  `none` models `float` raising `ValueError`. -/
def pyFloat (s : String) : Option PyNum :=
  let cs := (trimChars s.toList).map Char.toLower
  let (neg, cs) :=
    match cs with
    | '+' :: r => (false, r)
    | '-' :: r => (true, r)
    | r => (false, r)
  if cs = "inf".toList || cs = "infinity".toList then
    some (if neg then .negInf else .inf)
  else if cs = "nan".toList then some .nan
  else
    match splitOnChar 'e' cs with
    | [m] =>
        (parseMantissa m).map fun nf => .finite (sciRat neg nf.1 nf.2 0)
    | [m, e] =>
        match parseMantissa m, parseExpDigits e with
        | some nf, some ex => some (.finite (sciRat neg nf.1 nf.2 ex))
        | _, _ => none
    | _ => none

/-- `OllamaChat.set_parameter` (lines 256-266), with the raw value given as
a string (the dialog path of the GUI).  Returns the message, the state
after the call, and the config write when one happened. -/
def set_parameter (st : ChatState) (param value : String) :
    String × ChatState × Option ConfigOut :=
  if (st.parameters.map Prod.fst).contains param then
    match pyFloat value with
    | some n =>
        let st' := { st with parameters := setKey st.parameters param (.num n) }
        ("Parameter " ++ param ++ " set to " ++ value, st', some (save_config st'))
    | none => ("Invalid value for " ++ param, st, none)
  else ("Unknown parameter: " ++ param, st, none)

/-- `OllamaChat.set_model` (lines 244-248). -/
def set_model (st : ChatState) (m : String) : String × ChatState × ConfigOut :=
  let st' := { st with model := .str m }
  ("Model changed to " ++ m, st', save_config st')

/-- `OllamaChat.set_system_prompt` (lines 250-254). -/
def set_system_prompt (st : ChatState) (p : String) :
    String × ChatState × ConfigOut :=
  let st' := { st with system_prompt := .str p }
  ("System prompt updated", st', save_config st')

/-- The fixed save directory of `OllamaChat`. -/
def save_dir : String := "chat_history"

/-- The JSON document written by `OllamaChat.save_conversation`
(lines 168-175). -/
def savedData (st : ChatState) (base iso : String) : Json :=
  .obj [("model", st.model),
        ("timestamp", .str iso),
        ("system_prompt", st.system_prompt),
        ("parameters", .obj st.parameters),
        ("chat_name", .str base),
        ("conversation", st.conversation)]

/-- `OllamaChat.save_conversation` (lines 154-192): refuse when the
conversation is falsy; otherwise pick the file base name (a falsy custom
name falls back to the timestamp form), set `chat_name`, and write the
JSON document.  The result carries the message, the state after the call,
and the written path and document when a write happened.  The companion
transcript text file is regenerated from the same data on every save; its
rendered content is not modelled because no claim reads it back. -/
def save_conversation (st : ChatState) (custom_name : Option String)
    (ts iso : String) : String × ChatState × Option (String × Json) :=
  if pyTruthy st.conversation = false then ("No conversation to save", st, none)
  else
    let base :=
      match custom_name with
      | some n => if n = "" then "chat_" ++ ts else n
      | none => "chat_" ++ ts
    let st' := { st with chat_name := .str base }
    let filename := save_dir ++ "/" ++ base ++ ".json"
    ("Conversation saved to " ++ filename, st', some (filename, savedData st base iso))

/-- Final path component, `os.path.basename` for slash-separated paths. -/
def baseName (p : String) : String :=
  ⟨((splitOnChar '/' p.toList).getLastD [])⟩

/-- `os.path.basename(filename).split(".")[0]`. -/
def stemName (p : String) : String :=
  ⟨((splitOnChar '.' (baseName p).toList).headD [])⟩

/-- `OllamaChat.load_conversation` (lines 194-209), with the file contents
given as `none` when opening or `json.load` raises (missing, unreadable or
unparseable file) and `some data` otherwise.  The method assigns `model`
and `system_prompt` before `self.parameters.update(data["parameters"])`,
so an update argument that raises leaves those two fields already
overwritten; the blanket `except` then returns `False`.  A document that
is not a dict raises inside `data.get` before any assignment. -/
def load_conversation (st : ChatState) (filename : String)
    (file : Option Json) : Bool × ChatState :=
  match file with
  | none => (false, st)
  | some data =>
      match data with
      | .obj kvs =>
          let st1 := { st with
            model := (lookupJ kvs "model").getD st.model,
            system_prompt := (lookupJ kvs "system_prompt").getD (.str "") }
          let finish := fun (st2 : ChatState) =>
            (true, { st2 with
              conversation := (lookupJ kvs "conversation").getD (.arr []),
              chat_name := (lookupJ kvs "chat_name").getD (.str (stemName filename)) })
          match lookupJ kvs "parameters" with
          | some p =>
              match dictUpdateArg p with
              | some news =>
                  finish { st1 with parameters := updateKeys st1.parameters news }
              | none => (false, st1)
          | none => finish st1
      | _ => (false, st)

/-- `OllamaChat.clear_conversation` (lines 268-271): empty the conversation
list, return the message.  No other field is touched; in particular the
chat name keeps its value (the GUI caller resets it separately). -/
def clear_conversation (st : ChatState) : String × ChatState :=
  ("Conversation cleared", { st with conversation := .arr [] })

/-- Contents of one file in the modelled storage directory: a JSON data
file or a plain-text transcript. -/
inductive FileData where
  | json (j : Json)
  | text (s : String)

/-- The file system visible to `rename_chat_file`: a path-keyed map. -/
def FS : Type := List (String × FileData)

/-- File lookup, `os.path.exists` plus `open(...).read()`. -/
def fsLookup : FS → String → Option FileData
  | [], _ => none
  | (p', c) :: rest, p => if p' = p then some c else fsLookup rest p

/-- Remove a path from the file system. -/
def fsRemove : FS → String → FS
  | [], _ => []
  | (p', c) :: rest, p =>
      if p' = p then fsRemove rest p else (p', c) :: fsRemove rest p

/-- Write a path (create or overwrite). -/
def fsSet (fs : FS) (p : String) (c : FileData) : FS :=
  (p, c) :: fsRemove fs p

/-- Join path segments with slashes. -/
def joinSlash : List (List Char) → List Char
  | [] => []
  | [x] => x
  | x :: rest => x ++ '/' :: joinSlash rest

/-- `os.path.dirname` for slash-separated paths. -/
def dirName (p : String) : String :=
  let parts := splitOnChar '/' p.toList
  if parts.length ≤ 1 then "" else ⟨joinSlash parts.dropLast⟩

/-- Left-to-right non-overlapping replacement with a step budget, the
recursion core of Python `str.replace`. -/
def replaceFuel (sep rep : List Char) : ℕ → List Char → List Char
  | 0, cs => cs
  | n + 1, cs =>
      match cs with
      | [] => []
      | c :: rest =>
          if !sep.isEmpty && sep.isPrefixOf cs then
            rep ++ replaceFuel sep rep n (cs.drop sep.length)
          else c :: replaceFuel sep rep n rest

/-- Python `str.replace(old, new)`: every occurrence, left to right. -/
def replaceStr (s old new : String) : String :=
  ⟨replaceFuel old.toList new.toList s.toList.length s.toList⟩

/-- `os.path.join` for the shapes this program builds. -/
def joinPath (d n : String) : String :=
  if d = "" then n else d ++ "/" ++ n

/-- Target data-file path of a rename:
`os.path.join(os.path.dirname(old_path), new_name + ".json")`. -/
def newJsonPath (old_path new_name : String) : String :=
  joinPath (dirName old_path) (new_name ++ ".json")

/-- Target transcript path of a rename:
`os.path.join(os.path.dirname(old_path), new_name + ".txt")`. -/
def newTxtPath (old_path new_name : String) : String :=
  joinPath (dirName old_path) (new_name ++ ".txt")

/-- Transcript path of the source file:
`old_path.replace(".json", ".txt")`. -/
def oldTxtPath (old_path : String) : String :=
  replaceStr old_path ".json" ".txt"

/-- `OllamaChat.rename_chat_file` (lines 211-242) over the modelled file
system.  Steps of the source: collision check on the target data path
(early return, nothing touched); `os.rename` of the data file (a missing
source raises, caught by the blanket `except`); rename of the transcript
file only when it exists, where the transcript path comes from
`old_path.replace(".json", ".txt")` and is looked up after the data-file
move; re-read of the moved data file (its content is exactly the moved
record, the transcript target being a distinct path) and rewrite of its
`chat_name` field.  A moved record that is not a dict makes the field
assignment raise after the renames already happened. -/
def rename_chat_file (fs : FS) (old_path new_name : String) :
    (Bool × String) × FS :=
  if (fsLookup fs (newJsonPath old_path new_name)).isSome then
    ((false, "A file with this name already exists"), fs)
  else
    match fsLookup fs old_path with
    | none => ((false, "file not found"), fs)
    | some content =>
        let fs1 := fsSet (fsRemove fs old_path) (newJsonPath old_path new_name) content
        let fs2 :=
          match fsLookup fs1 (oldTxtPath old_path) with
          | some tc =>
              fsSet (fsRemove fs1 (oldTxtPath old_path)) (newTxtPath old_path new_name) tc
          | none => fs1
        match content with
        | .json (.obj kvs) =>
            ((true, newJsonPath old_path new_name),
             fsSet fs2 (newJsonPath old_path new_name)
               (.json (.obj (setKey kvs "chat_name" (.str new_name)))))
        | .json _ => ((false, "TypeError"), fs2)
        | .text _ => ((false, "JSONDecodeError"), fs2)

/-- A well-formed streamed fragment carrying the text delta `s`, as the
inference server emits it. -/
def mkDelta (s : String) : Frag :=
  .json (.obj [("response", .str s), ("done", .bool false)])

/-- The terminal streamed fragment: carries the done flag and no delta. -/
def termFrag : Frag := .json (.obj [("done", .bool true)])

/-- A response body of the `/api/tags` endpoint listing the given model
names. -/
def mkModelsBody (names : List String) : Json :=
  .obj [("models", .arr (names.map fun n => .obj [("name", .str n)]))]

/-- The parameter-mapping invariant claimed by the spec: exactly the four
fixed keys, every value numeric. -/
def paramsWF (ps : List (String × Json)) : Bool :=
  (ps.map Prod.fst == ["temperature", "top_p", "top_k", "max_tokens"]) &&
  ps.all fun kv => kv.2.isNum

/-- A session holding one exchange. -/
def stOneExch : ChatState :=
  { initState with conversation := .arr [mkExchJ "hi" (.str "hello")] }

/-- A session whose mapping carries one key beyond the fixed set, to
observe that loading preserves keys absent from the record. -/
def stExtraParam : ChatState :=
  { initState with parameters := defaultParameters ++ [("extra", .num (.finite 1))] }

/-- A session with a saved chat name and one exchange. -/
def namedState : ChatState :=
  { initState with chat_name := .str "t1",
                   conversation := .arr [mkExchJ "hi" (.str "yo")] }

/-- A JSON document whose `parameters` field is a number: `json.load`
succeeds on it, `dict.update` raises on it. -/
def badLoadDoc : Json :=
  .obj [("model", .str "m2"), ("parameters", .num (.finite 5))]

/-- A JSON document whose `parameters` object carries a key outside the
fixed set. -/
def fooParamsDoc : Json :=
  .obj [("parameters", .obj [("foo", .num (.finite 1))])]

/-- A storage directory holding one data file and its transcript. -/
def renameFS : FS :=
  [("chat_history/a.json", .json (.obj [("chat_name", .str "a"), ("conversation", .arr [])])),
   ("chat_history/a.txt", .text "transcript")]

/-- A storage directory where the rename target name is already taken. -/
def renameCollisionFS : FS :=
  [("chat_history/a.json", .json (.obj [("chat_name", .str "a")])),
   ("chat_history/b.json", .json (.obj [("chat_name", .str "b")]))]

/-- Reading back the key just assigned yields the assigned value. -/
theorem lookupJ_setKey_self (ps : List (String × Json)) (k : String) (v : Json) :
    lookupJ (setKey ps k v) k = some v := by
  induction ps with
  | nil => simp [setKey, lookupJ]
  | cons kv rest ih =>
      obtain ⟨k', v'⟩ := kv
      by_cases h : k' = k
      · simp [setKey, lookupJ, h]
      · simp [setKey, lookupJ, h, ih]

/-- Assigning one key leaves every other key unchanged. -/
theorem lookupJ_setKey_ne (ps : List (String × Json)) (k' k : String) (v : Json)
    (h : k' ≠ k) : lookupJ (setKey ps k' v) k = lookupJ ps k := by
  induction ps with
  | nil => simp [setKey, lookupJ, h]
  | cons kv rest ih =>
      obtain ⟨a, b⟩ := kv
      by_cases ha : a = k'
      · subst ha
        simp [setKey, lookupJ, h]
      · simp [setKey, lookupJ, ha, ih]

/-- Assigning a key that is already present keeps the key sequence. -/
theorem map_fst_setKey (ps : List (String × Json)) (k : String) (v : Json)
    (h : k ∈ ps.map Prod.fst) :
    (setKey ps k v).map Prod.fst = ps.map Prod.fst := by
  induction ps with
  | nil => simp at h
  | cons kv rest ih =>
      obtain ⟨a, b⟩ := kv
      by_cases ha : a = k
      · simp [setKey, ha]
      · have h0 : k ∈ a :: rest.map Prod.fst := by simpa using h
        rcases List.mem_cons.mp h0 with h1 | h2
        · exact absurd h1.symm ha
        · simp [setKey, ha, ih h2]

/-- Assigning a numeric value keeps every value of the mapping numeric. -/
theorem all_num_setKey (ps : List (String × Json)) (k : String) (n : PyNum)
    (hall : ∀ kv ∈ ps, kv.2.isNum = true) :
    ∀ kv ∈ setKey ps k (.num n), kv.2.isNum = true := by
  induction ps with
  | nil =>
      intro kv hkv
      simp [setKey] at hkv
      rw [hkv]
      rfl
  | cons hd rest ih =>
      obtain ⟨a, b⟩ := hd
      intro kv hkv
      by_cases ha : a = k
      · simp [setKey, ha] at hkv
        rcases hkv with h1 | h2
        · rw [h1]; rfl
        · exact hall _ (List.mem_cons_of_mem _ h2)
      · simp [setKey, ha] at hkv
        rcases hkv with h1 | h2
        · rw [h1]; exact hall _ (List.mem_cons_self _ _)
        · exact ih (fun kv hm => hall _ (List.mem_cons_of_mem _ hm)) _ h2

/-- Merging pairs whose keys avoid `k` leaves the value at `k` unchanged. -/
theorem lookupJ_updateKeys_of_not_mem (news ps : List (String × Json))
    (k : String) (h : k ∉ news.map Prod.fst) :
    lookupJ (updateKeys ps news) k = lookupJ ps k := by
  induction news generalizing ps with
  | nil => rfl
  | cons kv rest ih =>
      have hk1 : kv.1 ≠ k := by
        intro he
        exact h (by simp [he])
      have hrest : k ∉ rest.map Prod.fst := by
        intro hm
        exact h (by simp [hm])
      have step : updateKeys ps (kv :: rest) = updateKeys (setKey ps kv.1 kv.2) rest := rfl
      rw [step, ih (setKey ps kv.1 kv.2) hrest,
        lookupJ_setKey_ne ps kv.1 k kv.2 hk1]

/-- Removing a path makes it absent. -/
theorem fsLookup_fsRemove_self (fs : FS) (p : String) :
    fsLookup (fsRemove fs p) p = none := by
  induction fs with
  | nil => rfl
  | cons e rest ih =>
      obtain ⟨q, c⟩ := e
      by_cases hq : q = p
      · simp [fsRemove, hq, ih]
      · simp [fsRemove, fsLookup, hq, ih]

/-- Removing one path leaves every other path unchanged. -/
theorem fsLookup_fsRemove_ne (fs : FS) (p q : String) (h : p ≠ q) :
    fsLookup (fsRemove fs p) q = fsLookup fs q := by
  induction fs with
  | nil => rfl
  | cons e rest ih =>
      obtain ⟨r, c⟩ := e
      by_cases hr : r = p
      · subst hr
        simp [fsRemove, fsLookup, h, ih]
      · simp [fsRemove, fsLookup, hr, ih]

/-- Reading the path just written yields the written content. -/
theorem fsLookup_fsSet_self (fs : FS) (p : String) (c : FileData) :
    fsLookup (fsSet fs p c) p = some c := by
  simp [fsSet, fsLookup]

/-- Writing one path leaves every other path unchanged. -/
theorem fsLookup_fsSet_ne (fs : FS) (p : String) (c : FileData) (q : String)
    (h : p ≠ q) : fsLookup (fsSet fs p c) q = fsLookup fs q := by
  simp [fsSet, fsLookup, h, fsLookup_fsRemove_ne fs p q h]

/-- Running the streaming loop over well-formed delta fragments followed by
the terminal fragment accumulates every delta and records the callback
invocations in arrival order. -/
theorem streamFrags_deltas (ds : List String) (acc : String)
    (calls : List String) :
    streamFrags (ds.map mkDelta ++ [termFrag]) acc calls =
      .ok (ds.foldl (fun a b => a ++ b) acc, calls ++ ds) := by
  induction ds generalizing acc calls with
  | nil =>
      show streamFrags [termFrag] acc calls = .ok (acc, calls ++ [])
      rw [List.append_nil]
      rfl
  | cons d rest ih =>
      have step : streamFrags ((d :: rest).map mkDelta ++ [termFrag]) acc calls =
          streamFrags (rest.map mkDelta ++ [termFrag]) (acc ++ d) (calls ++ [d]) := rfl
      rw [step, ih, List.append_assoc]
      rfl

/-- A malformed line aborts the streaming loop with the uncaught
`json.loads` exception, whatever precedes or follows it. -/
theorem streamFrags_malformed (ds : List String) (rest : List Frag)
    (acc : String) (calls : List String) :
    streamFrags (ds.map mkDelta ++ .malformed :: rest) acc calls =
      .error .jsonDecodeError := by
  induction ds generalizing acc calls with
  | nil => rfl
  | cons d tl ih =>
      have step : streamFrags ((d :: tl).map mkDelta ++ .malformed :: rest) acc calls =
          streamFrags (tl.map mkDelta ++ .malformed :: rest) (acc ++ d) (calls ++ [d]) := rfl
      rw [step, ih]

/-- The list comprehension of `get_models` maps a well-formed model array
to its name strings. -/
theorem mapM_modelName (names : List String) :
    ((names.map fun n => Json.obj [("name", Json.str n)]).mapM modelName) =
      Except.ok (names.map Json.str) := by
  induction names with
  | nil => rfl
  | cons n rest ih =>
      rw [List.map_cons, List.mapM_cons, ih]
      rfl

/-- The narrating string of the transport-failure path is never empty. -/
theorem errNarr_ne_empty (e : String) : errNarr e ≠ "" := by
  intro h
  have hlen := congrArg String.length h
  rw [errNarr, String.length_append] at hlen
  rw [show ("Error communicating with Ollama: ").length = 33 from rfl] at hlen
  rw [show ("" : String).length = 0 from rfl] at hlen
  omega

/-- C1: for every streaming generate call whose server response is a
sequence of newline-delimited JSON fragments carrying the text deltas `ds`
followed by the terminal fragment, the sink is invoked once per delta, in
arrival order, with exactly that delta, and the call returns the
concatenation of all deltas (appending the finished exchange to the
conversation). -/
theorem c1_streaming_sink_order_and_concat (st : ChatState) (prompt : String)
    (ds : List String) (xs : List Json) (h : st.conversation = .arr xs) :
    chat_stream st prompt (.ok (ds.map mkDelta ++ [termFrag])) =
      .ok (ds.foldl (fun a b => a ++ b) "", ds,
        { st with conversation :=
            Json.arr (xs ++ [mkExchJ prompt (.str (ds.foldl (fun a b => a ++ b) ""))]) }) := by
  simp only [chat_stream, streamFrags_deltas, h, List.nil_append]

/-- Witness for C1 at the deltas A, B, C of the spec scenario: the sink
receives A then B then C and the returned text is ABC. -/
theorem c1_streaming_sink_order_and_concat_witness :
    chat_stream initState "hi"
      (.ok [mkDelta "A", mkDelta "B", mkDelta "C", termFrag]) =
      .ok ("ABC", ["A", "B", "C"],
        { initState with conversation := .arr [mkExchJ "hi" (.str "ABC")] }) :=
  c1_streaming_sink_order_and_concat initState "hi" ["A", "B", "C"] [] rfl

/-- C2 counterexample: a generate call against an unreachable endpoint
returns the narrating string but appends nothing: the state after the call
is the unchanged initial state whose conversation is empty, not a log with
one appended Exchange. -/
theorem c2_counterexample :
    chat_stream initState "hi" (.reqError "connection refused") =
      .ok ("Error communicating with Ollama: connection refused", [], initState) ∧
    initState.conversation = .arr [] :=
  ⟨rfl, rfl⟩

/-- C2 amended: for every generate call (either mode) whose transport
fails, the call does not raise and returns a non-empty narrating string,
but it appends no Exchange: the conversation log is left exactly as it
was. -/
theorem c2_transport_error_narrates_without_append (st : ChatState)
    (prompt e : String) :
    chat_stream st prompt (.reqError e) = .ok (errNarr e, [], st) ∧
    chat_once st prompt (.reqError e) = .ok (.str (errNarr e), st) ∧
    errNarr e ≠ "" :=
  ⟨rfl, rfl, errNarr_ne_empty e⟩

/-- C3 counterexample: a malformed fragment between two well-formed deltas
makes the streaming call raise the JSON-decoding exception instead of
skipping the fragment and returning the concatenation AB of the
well-formed deltas. -/
theorem c3_counterexample :
    chat_stream initState "hi"
      (.ok [mkDelta "A", .malformed, mkDelta "B", termFrag]) =
      .error .jsonDecodeError := rfl

/-- C3 amended: in every streaming generate call, the first malformed
fragment aborts the stream: `json.loads` raises, the exception is not
caught (only RequestException is), no text is returned and no exchange is
appended, whatever well-formed deltas preceded and whatever follows. -/
theorem c3_malformed_fragment_aborts (st : ChatState) (prompt : String)
    (ds : List String) (rest : List Frag) :
    chat_stream st prompt (.ok (ds.map mkDelta ++ .malformed :: rest)) =
      .error .jsonDecodeError := by
  simp only [chat_stream, streamFrags_malformed]

/-- C4: for every session with a truthy (non-empty) conversation, saving
under a non-empty name writes a document whose later load reproduces the
same conversation content and the same chat name, while parameter keys not
present in the saved record keep their pre-load values (the load merges
into the existing mapping instead of replacing it). -/
theorem c4_save_load_roundtrip (st1 st2 : ChatState) (name ts iso fn : String)
    (hconv : pyTruthy st1.conversation = true) (hname : name ≠ "") :
    (save_conversation st1 (some name) ts iso).2.1.chat_name = .str name ∧
    (save_conversation st1 (some name) ts iso).2.2 =
      some (save_dir ++ "/" ++ name ++ ".json", savedData st1 name iso) ∧
    (load_conversation st2 fn (some (savedData st1 name iso))).1 = true ∧
    (load_conversation st2 fn (some (savedData st1 name iso))).2.conversation
      = st1.conversation ∧
    (load_conversation st2 fn (some (savedData st1 name iso))).2.chat_name
      = .str name ∧
    (∀ k, k ∉ st1.parameters.map Prod.fst →
      lookupJ (load_conversation st2 fn (some (savedData st1 name iso))).2.parameters k
        = lookupJ st2.parameters k) := by
  have hsave : save_conversation st1 (some name) ts iso =
      ("Conversation saved to " ++ (save_dir ++ "/" ++ name ++ ".json"),
       { st1 with chat_name := .str name },
       some (save_dir ++ "/" ++ name ++ ".json", savedData st1 name iso)) := by
    simp [save_conversation, hconv, hname]
  have hload : load_conversation st2 fn (some (savedData st1 name iso)) =
      (true, { st2 with
               model := st1.model
               system_prompt := st1.system_prompt
               parameters := updateKeys st2.parameters st1.parameters
               conversation := st1.conversation
               chat_name := .str name }) := by
    simp [load_conversation, savedData, lookupJ, dictUpdateArg]
  refine ⟨by rw [hsave], by rw [hsave], by rw [hload], by rw [hload],
    by rw [hload], ?_⟩
  intro k hk
  rw [hload]
  exact lookupJ_updateKeys_of_not_mem st1.parameters st2.parameters k hk

/-- Witness for C4: one exchange saved as t1 and loaded into a session
carrying an extra parameter key; the exchange, the chat name and the extra
key survive. -/
theorem c4_save_load_roundtrip_witness :
    (load_conversation stExtraParam "f.json"
        (some (savedData stOneExch "t1" "iso"))).1 = true ∧
    (load_conversation stExtraParam "f.json"
        (some (savedData stOneExch "t1" "iso"))).2.conversation
      = .arr [mkExchJ "hi" (.str "hello")] ∧
    (load_conversation stExtraParam "f.json"
        (some (savedData stOneExch "t1" "iso"))).2.chat_name = .str "t1" ∧
    lookupJ (load_conversation stExtraParam "f.json"
        (some (savedData stOneExch "t1" "iso"))).2.parameters "extra"
      = some (.num (.finite 1)) := by
  have h := c4_save_load_roundtrip stOneExch stExtraParam "t1" "ts" "iso" "f.json"
    (by decide) (by decide)
  exact ⟨h.2.2.1, h.2.2.2.1, h.2.2.2.2.1,
    by rw [h.2.2.2.2.2 "extra" (by decide)]; rfl⟩

/-- C5 counterexample: the raw value inf does not denote a finite number,
yet `set_parameter` accepts it, stores the non-finite float and persists
the configuration, where the claim requires an InvalidValue failure that
leaves the mapping untouched. -/
theorem c5_counterexample :
    set_parameter initState "temperature" "inf" =
      ("Parameter temperature set to inf",
       { initState with
         parameters := setKey initState.parameters "temperature" (.num .inf) },
       some (save_config
         { initState with
           parameters := setKey initState.parameters "temperature" (.num .inf) })) ∧
    lookupJ (setKey initState.parameters "temperature" (.num .inf)) "temperature"
      = some (.num .inf) :=
  ⟨rfl, rfl⟩

/-- C5 amended: `set_parameter` rejects a name outside the fixed set and a
raw value that Python float parsing rejects, leaving the mapping and the
durable config untouched in both cases; a parseable value — including the
non-finite inf and nan — is stored so that a subsequent read yields it,
and the configuration is persisted. -/
theorem c5_set_parameter_cases (st : ChatState) (param value : String) :
    ((st.parameters.map Prod.fst).contains param = false →
      set_parameter st param value = ("Unknown parameter: " ++ param, st, none)) ∧
    ((st.parameters.map Prod.fst).contains param = true → pyFloat value = none →
      set_parameter st param value = ("Invalid value for " ++ param, st, none)) ∧
    (∀ n, (st.parameters.map Prod.fst).contains param = true →
      pyFloat value = some n →
      set_parameter st param value =
        ("Parameter " ++ param ++ " set to " ++ value,
         { st with
           parameters := setKey st.parameters param (.num n) },
         some (save_config
           { st with
             parameters := setKey st.parameters param (.num n) })) ∧
      lookupJ (set_parameter st param value).2.1.parameters param
        = some (.num n)) := by
  refine ⟨?_, ?_, ?_⟩
  · intro h
    unfold set_parameter
    rw [if_neg (by rw [h]; exact Bool.false_ne_true)]
  · intro h hv
    unfold set_parameter
    rw [if_pos h, hv]
  · intro n h hv
    unfold set_parameter
    rw [if_pos h, hv]
    exact ⟨rfl, lookupJ_setKey_self st.parameters param (.num n)⟩

/-- Witness for C5: an unknown name fails, an unparseable value fails, and
the raw value 0.5 is read back as one half. -/
theorem c5_set_parameter_cases_witness :
    set_parameter initState "bogus" "1" = ("Unknown parameter: bogus", initState, none) ∧
    set_parameter initState "temperature" "x" =
      ("Invalid value for temperature", initState, none) ∧
    lookupJ (set_parameter initState "temperature" "0.5").2.1.parameters "temperature"
      = some (.num (.finite (mkRat 1 2))) := by
  refine ⟨?_, ?_, ?_⟩
  · exact (c5_set_parameter_cases initState "bogus" "1").1 (by decide)
  · exact (c5_set_parameter_cases initState "temperature" "x").2.1 (by decide) (by decide)
  · exact ((c5_set_parameter_cases initState "temperature" "0.5").2.2
      (.finite (mkRat 1 2)) (by decide) (by decide)).2

/-- C6: renaming onto an existing data-file name fails with the collision
result and leaves the whole file system unchanged; renaming to a free name
moves the data file, rewrites the chat-name field inside the relocated
record, moves the transcript when one exists, and treats an absent
transcript as success, not an error.  The path-inequality hypotheses state
that the four involved paths are distinct, which holds for the
`dir/name.json` and `dir/name.txt` shapes the program builds. -/
theorem c6_rename_collision_and_success (fs : FS) (old_path new_name : String) :
    ((fsLookup fs (newJsonPath old_path new_name)).isSome = true →
      rename_chat_file fs old_path new_name =
        ((false, "A file with this name already exists"), fs)) ∧
    (∀ kvs, fsLookup fs (newJsonPath old_path new_name) = none →
      fsLookup fs old_path = some (.json (.obj kvs)) →
      fsLookup fs (oldTxtPath old_path) = none →
      oldTxtPath old_path ≠ newJsonPath old_path new_name →
      (rename_chat_file fs old_path new_name).1 =
        (true, newJsonPath old_path new_name) ∧
      fsLookup (rename_chat_file fs old_path new_name).2
          (newJsonPath old_path new_name) =
        some (.json (.obj (setKey kvs "chat_name" (.str new_name)))) ∧
      fsLookup (rename_chat_file fs old_path new_name).2 old_path = none) ∧
    (∀ kvs tc, fsLookup fs (newJsonPath old_path new_name) = none →
      fsLookup fs old_path = some (.json (.obj kvs)) →
      fsLookup fs (oldTxtPath old_path) = some tc →
      oldTxtPath old_path ≠ newJsonPath old_path new_name →
      oldTxtPath old_path ≠ old_path →
      oldTxtPath old_path ≠ newTxtPath old_path new_name →
      old_path ≠ newTxtPath old_path new_name →
      newTxtPath old_path new_name ≠ newJsonPath old_path new_name →
      (rename_chat_file fs old_path new_name).1 =
        (true, newJsonPath old_path new_name) ∧
      fsLookup (rename_chat_file fs old_path new_name).2
          (newJsonPath old_path new_name) =
        some (.json (.obj (setKey kvs "chat_name" (.str new_name)))) ∧
      fsLookup (rename_chat_file fs old_path new_name).2 old_path = none ∧
      fsLookup (rename_chat_file fs old_path new_name).2
          (newTxtPath old_path new_name) = some tc ∧
      fsLookup (rename_chat_file fs old_path new_name).2 (oldTxtPath old_path)
        = none) := by
  refine ⟨?_, ?_, ?_⟩
  · intro h
    unfold rename_chat_file
    rw [if_pos h]
  · intro kvs h1 h2 h3 h4
    have hno : ¬((fsLookup fs (newJsonPath old_path new_name)).isSome = true) := by
      rw [h1]; simp
    have hone : old_path ≠ newJsonPath old_path new_name := by
      intro e
      rw [e, h1] at h2
      exact Option.noConfusion h2
    have hfs1txt : fsLookup
        (fsSet (fsRemove fs old_path) (newJsonPath old_path new_name)
          (FileData.json (.obj kvs))) (oldTxtPath old_path) = none := by
      rw [fsLookup_fsSet_ne _ _ _ _ (fun e => h4 e.symm)]
      by_cases hoe : old_path = oldTxtPath old_path
      · rw [← hoe, fsLookup_fsRemove_self]
      · rw [fsLookup_fsRemove_ne _ _ _ hoe, h3]
    have hmain : rename_chat_file fs old_path new_name =
        ((true, newJsonPath old_path new_name),
         fsSet (fsSet (fsRemove fs old_path) (newJsonPath old_path new_name)
             (FileData.json (.obj kvs)))
           (newJsonPath old_path new_name)
           (.json (.obj (setKey kvs "chat_name" (.str new_name))))) := by
      unfold rename_chat_file
      rw [if_neg hno, h2]
      simp only [hfs1txt]
    rw [hmain]
    refine ⟨rfl, fsLookup_fsSet_self _ _ _, ?_⟩
    rw [fsLookup_fsSet_ne _ _ _ _ (fun e => hone e.symm),
      fsLookup_fsSet_ne _ _ _ _ (fun e => hone e.symm),
      fsLookup_fsRemove_self]
  · intro kvs tc h1 h2 h3 h4 h5 h6 h7 h8
    have hno : ¬((fsLookup fs (newJsonPath old_path new_name)).isSome = true) := by
      rw [h1]; simp
    have hone : old_path ≠ newJsonPath old_path new_name := by
      intro e
      rw [e, h1] at h2
      exact Option.noConfusion h2
    have hfs1txt : fsLookup
        (fsSet (fsRemove fs old_path) (newJsonPath old_path new_name)
          (FileData.json (.obj kvs))) (oldTxtPath old_path) = some tc := by
      rw [fsLookup_fsSet_ne _ _ _ _ (fun e => h4 e.symm),
        fsLookup_fsRemove_ne _ _ _ (fun e => h5 e.symm), h3]
    have hmain : rename_chat_file fs old_path new_name =
        ((true, newJsonPath old_path new_name),
         fsSet
           (fsSet
             (fsRemove
               (fsSet (fsRemove fs old_path) (newJsonPath old_path new_name)
                 (FileData.json (.obj kvs)))
               (oldTxtPath old_path))
             (newTxtPath old_path new_name) tc)
           (newJsonPath old_path new_name)
           (.json (.obj (setKey kvs "chat_name" (.str new_name))))) := by
      unfold rename_chat_file
      rw [if_neg hno, h2]
      simp only [hfs1txt]
    rw [hmain]
    refine ⟨rfl, fsLookup_fsSet_self _ _ _, ?_, ?_, ?_⟩
    · rw [fsLookup_fsSet_ne _ _ _ _ (fun e => hone e.symm),
        fsLookup_fsSet_ne _ _ _ _ (fun e => h7 e.symm),
        fsLookup_fsRemove_ne _ _ _ h5,
        fsLookup_fsSet_ne _ _ _ _ (fun e => hone e.symm),
        fsLookup_fsRemove_self]
    · rw [fsLookup_fsSet_ne _ _ _ _ (fun e => h8 e.symm),
        fsLookup_fsSet_self]
    · rw [fsLookup_fsSet_ne _ _ _ _ (fun e => h4 e.symm),
        fsLookup_fsSet_ne _ _ _ _ (fun e => h6 e.symm),
        fsLookup_fsRemove_self]

/-- Witness for C6: in a directory holding a.json and a.txt, renaming to
the taken name b fails without mutation when b.json exists, and renaming
to the free name b moves both files and rewrites the chat-name field. -/
theorem c6_rename_collision_and_success_witness :
    rename_chat_file renameCollisionFS "chat_history/a.json" "b" =
      ((false, "A file with this name already exists"), renameCollisionFS) ∧
    (rename_chat_file renameFS "chat_history/a.json" "b").1 =
      (true, "chat_history/b.json") ∧
    fsLookup (rename_chat_file renameFS "chat_history/a.json" "b").2
        "chat_history/b.json" =
      some (.json (.obj [("chat_name", .str "b"), ("conversation", .arr [])])) ∧
    fsLookup (rename_chat_file renameFS "chat_history/a.json" "b").2
        "chat_history/a.json" = none ∧
    fsLookup (rename_chat_file renameFS "chat_history/a.json" "b").2
        "chat_history/b.txt" = some (.text "transcript") ∧
    fsLookup (rename_chat_file renameFS "chat_history/a.json" "b").2
        "chat_history/a.txt" = none := by
  have hcol := (c6_rename_collision_and_success renameCollisionFS
    "chat_history/a.json" "b").1 (by decide)
  have hsuc := (c6_rename_collision_and_success renameFS
    "chat_history/a.json" "b").2.2
    [("chat_name", .str "a"), ("conversation", .arr [])] (.text "transcript")
    rfl rfl rfl (by decide) (by decide) (by decide) (by decide) (by decide)
  exact ⟨hcol, hsuc.1, hsuc.2.1, hsuc.2.2.1, hsuc.2.2.2.1, hsuc.2.2.2.2⟩

/-- C7 counterexample: loading a JSON object whose parameters field is a
number fails (load returns False), yet the in-memory model has already
been overwritten from m1-era llama3.2 to m2 — the session is not left as
it was. -/
theorem c7_counterexample :
    (load_conversation initState "f.json" (some badLoadDoc)).1 = false ∧
    (load_conversation initState "f.json" (some badLoadDoc)).2.model = .str "m2" ∧
    initState.model = .str "llama3.2" :=
  ⟨rfl, rfl, rfl⟩

/-- C7 amended: a load that fails before any field assignment — file
missing, unreadable or not parseable JSON, or JSON that is not an object —
leaves the whole session exactly as it was; but a JSON object whose
parameters field raises inside `dict.update` fails only after model and
system prompt were already overwritten. -/
theorem c7_load_error_atomicity (st : ChatState) (fn : String) :
    load_conversation st fn none = (false, st) ∧
    (∀ j, j.isObj = false → load_conversation st fn (some j) = (false, st)) ∧
    (∀ kvs p, lookupJ kvs "parameters" = some p → dictUpdateArg p = none →
      load_conversation st fn (some (.obj kvs)) =
        (false, { st with
                  model := (lookupJ kvs "model").getD st.model
                  system_prompt := (lookupJ kvs "system_prompt").getD (.str "") })) := by
  refine ⟨rfl, ?_, ?_⟩
  · intro j hj
    cases j <;> first | rfl | exact absurd hj (by simp [Json.isObj])
  · intro kvs p hp hbad
    simp only [load_conversation, hp, hbad]

/-- Witness for C7: the none case, a non-object document and an object
document with a numeric parameters field, at the initial state. -/
theorem c7_load_error_atomicity_witness :
    load_conversation initState "f.json" none = (false, initState) ∧
    load_conversation initState "f.json" (some (.arr [])) = (false, initState) ∧
    load_conversation initState "f.json" (some (.obj [("parameters", .num (.finite 5))])) =
      (false, initState) := by
  have h := c7_load_error_atomicity initState "f.json"
  refine ⟨h.1, h.2.1 (.arr []) rfl, ?_⟩
  have h3 := h.2.2 [("parameters", .num (.finite 5))] (.num (.finite 5)) rfl rfl
  exact h3

/-- C8 counterexample: a 2xx response whose JSON body lacks the models
field makes `get_models` raise KeyError past the method instead of
returning the empty list. -/
theorem c8_counterexample :
    get_models (.ok (.obj [("foo", .arr [])])) = .error .keyError := rfl

/-- C8 amended: `get_models` returns the model names in server order for a
well-formed body, and returns the empty list on a RequestException
(unreachable server, non-2xx status, or a body the response JSON decoder
rejects); but a decodable body of the wrong shape — such as an object
without the models field — raises an uncaught exception rather than
yielding the empty list. -/
theorem c8_get_models_cases (e : String) (names : List String) :
    get_models (.reqError e) = .ok [] ∧
    get_models (.ok (mkModelsBody names)) = .ok (names.map Json.str) :=
  ⟨rfl, mapM_modelName names⟩

/-- C9 counterexample: loading a record whose parameters object carries
the key foo pushes foo into the mapping: after the load the key sequence
extends beyond the fixed set, so the invariant is not preserved by every
operation. -/
theorem c9_counterexample :
    (load_conversation initState "f.json" (some fooParamsDoc)).1 = true ∧
    (load_conversation initState "f.json" (some fooParamsDoc)).2.parameters.map Prod.fst
      = ["temperature", "top_p", "top_k", "max_tokens", "foo"] :=
  ⟨rfl, rfl⟩

/-- C9 amended: the fixed-keys-with-numeric-values invariant holds at
initialization and is preserved by `set_parameter` (which filters names
and parses values) and by `set_model`, `set_system_prompt`,
`save_conversation` and `clear_conversation` (which do not touch the
mapping); `load_conversation` is the exception, merging record keys
without filtering. -/
theorem c9_params_invariant_except_load :
    paramsWF defaultParameters = true ∧
    (∀ st param value, paramsWF st.parameters = true →
      paramsWF (set_parameter st param value).2.1.parameters = true) ∧
    (∀ st m, (set_model st m).2.1.parameters = st.parameters) ∧
    (∀ st p, (set_system_prompt st p).2.1.parameters = st.parameters) ∧
    (∀ st c ts iso, (save_conversation st c ts iso).2.1.parameters = st.parameters) ∧
    (∀ st, (clear_conversation st).2.parameters = st.parameters) := by
  refine ⟨by decide, ?_, fun st m => rfl, fun st p => rfl, ?_, fun st => rfl⟩
  · intro st param value h
    by_cases hc : (st.parameters.map Prod.fst).contains param = true
    · cases hv : pyFloat value with
      | none =>
          unfold set_parameter
          rw [if_pos hc, hv]
          exact h
      | some n =>
          unfold set_parameter
          rw [if_pos hc, hv]
          show paramsWF (setKey st.parameters param (.num n)) = true
          have hmem : param ∈ st.parameters.map Prod.fst := by simpa using hc
          unfold paramsWF at h ⊢
          rw [Bool.and_eq_true] at h ⊢
          refine ⟨?_, ?_⟩
          · rw [map_fst_setKey st.parameters param (.num n) hmem]
            exact h.1
          · rw [List.all_eq_true]
            exact all_num_setKey st.parameters param n (List.all_eq_true.mp h.2)
    · unfold set_parameter
      rw [if_neg hc]
      exact h
  · intro st c ts iso
    unfold save_conversation
    by_cases hconv : pyTruthy st.conversation = false
    · rw [if_pos hconv]
    · rw [if_neg hconv]

/-- Witness for C9: the invariant holds after setting top_p to 0.3 from
the initial state. -/
theorem c9_params_invariant_except_load_witness :
    paramsWF defaultParameters = true ∧
    paramsWF (set_parameter initState "top_p" "0.3").2.1.parameters = true :=
  ⟨c9_params_invariant_except_load.1,
   c9_params_invariant_except_load.2.1 initState "top_p" "0.3" (by decide)⟩

/-- C10 counterexample: clearing a session whose chat name is t1 leaves
the chat name t1 in place (the claim requires the nameless reset to happen
inside the clear operation). -/
theorem c10_counterexample :
    (clear_conversation namedState).2.chat_name = .str "t1" ∧
    namedState.chat_name = .str "t1" ∧
    Json.str "t1" ≠ Json.str "" := by
  refine ⟨rfl, rfl, ?_⟩
  intro h
  injection h with h'
  exact absurd h' (by decide)

/-- C10 amended: `clear_conversation` empties the conversation log and
returns its message, and leaves every other field of the session — base
URL, model, system prompt, parameters, and also the chat name — exactly
unchanged; the nameless reset is performed by the GUI caller, not by this
operation. -/
theorem c10_clear_frame (st : ChatState) :
    (clear_conversation st).1 = "Conversation cleared" ∧
    (clear_conversation st).2.conversation = .arr [] ∧
    (clear_conversation st).2.base_url = st.base_url ∧
    (clear_conversation st).2.model = st.model ∧
    (clear_conversation st).2.system_prompt = st.system_prompt ∧
    (clear_conversation st).2.chat_name = st.chat_name ∧
    (clear_conversation st).2.parameters = st.parameters :=
  ⟨rfl, rfl, rfl, rfl, rfl, rfl, rfl⟩

/-- Witness for C2 at a concrete timeout failure: both modes return the
non-empty narrating string and leave the state untouched. -/
theorem c2_transport_error_narrates_without_append_witness :
    chat_stream initState "hi" (.reqError "timeout") =
      .ok (errNarr "timeout", [], initState) ∧
    chat_once initState "hi" (.reqError "timeout") =
      .ok (.str (errNarr "timeout"), initState) ∧
    errNarr "timeout" ≠ "" :=
  c2_transport_error_narrates_without_append initState "hi" "timeout"

/-- Witness for C3: one delta followed by a malformed line aborts the
call with the JSON-decoding exception. -/
theorem c3_malformed_fragment_aborts_witness :
    chat_stream initState "p" (.ok ([mkDelta "X", .malformed])) =
      .error .jsonDecodeError :=
  c3_malformed_fragment_aborts initState "p" ["X"] []

/-- Witness for C8: an unreachable server yields the empty list, and the
two-model body of the spec scenario yields the names a, b in order. -/
theorem c8_get_models_cases_witness :
    get_models (.reqError "down") = .ok [] ∧
    get_models (.ok (mkModelsBody ["a", "b"])) = .ok [.str "a", .str "b"] :=
  c8_get_models_cases "down" ["a", "b"]

/-- Witness for C10 at a session with one exchange: the log is emptied and
every other field keeps its value. -/
theorem c10_clear_frame_witness :
    (clear_conversation stOneExch).1 = "Conversation cleared" ∧
    (clear_conversation stOneExch).2.conversation = .arr [] ∧
    (clear_conversation stOneExch).2.base_url = stOneExch.base_url ∧
    (clear_conversation stOneExch).2.model = stOneExch.model ∧
    (clear_conversation stOneExch).2.system_prompt = stOneExch.system_prompt ∧
    (clear_conversation stOneExch).2.chat_name = stOneExch.chat_name ∧
    (clear_conversation stOneExch).2.parameters = stOneExch.parameters :=
  c10_clear_frame stOneExch
